import Mathlib

/-!
Shallow embedding of the OBS digital-signage content engine
(`src/core/scheduler.py` and `src/core/content_manager.py`).

Python `datetime.time` values (hour, minute) are embedded as `TimeOfDay`
with the lexicographic comparison Python uses for `time` objects; Python
floats (durations, timestamps, mtimes) are embedded as `Rat`; Python sets
of strings are embedded as lists with set semantics (`addName` /
`removeName`); calls against the external OBS controller are recorded as
an explicit operation list `Op`, and the controller's scene/input
collections as `ObsState`.
-/

/-- Time of day (hour, minute), as Python `datetime.time(hour, minute)`. -/
structure TimeOfDay where
  hour : Nat
  minute : Nat
deriving DecidableEq, Repr

/-- `a <= b` on `datetime.time`: lexicographic on (hour, minute). -/
def TimeOfDay.ble (a b : TimeOfDay) : Bool :=
  a.hour < b.hour || (a.hour == b.hour && a.minute ≤ b.minute)

/-- `a < b` on `datetime.time`: lexicographic on (hour, minute). -/
def TimeOfDay.blt (a b : TimeOfDay) : Bool :=
  a.hour < b.hour || (a.hour == b.hour && a.minute < b.minute)

/-- The parts of a Python `datetime` the scheduler reads: `weekday()`
(0 = Monday .. 6 = Sunday) and `time()`. -/
structure DateTime where
  weekday : Nat
  timeOfDay : TimeOfDay
deriving DecidableEq, Repr

/-- `Schedule` from `scheduler.py`: a named content window with optional
day-of-week and time-of-day restrictions. -/
structure Schedule where
  name : String
  folder : String
  transition_type : String
  transition_offset : Rat
  day_of_week : Option Nat
  start_time : Option TimeOfDay
  end_time : Option TimeOfDay
deriving DecidableEq, Repr

/-- The time-range part of `Schedule.is_active` (source lines 63-79):
no bounds means always active; both bounds set means a half-open range
check with midnight wraparound; any other combination falls through to
`return True`. -/
def Schedule.timeCheck (s : Schedule) (current_time : DateTime) : Bool :=
  if s.start_time.isNone && s.end_time.isNone then
    true
  else
    match s.start_time, s.end_time with
    | some start_t, some end_t =>
      if start_t.ble end_t then
        start_t.ble current_time.timeOfDay && current_time.timeOfDay.blt end_t
      else
        start_t.ble current_time.timeOfDay || current_time.timeOfDay.blt end_t
    | _, _ => true

/-- `Schedule.is_active` (source lines 48-79): the day-of-week guard
followed by the time-range check. -/
def Schedule.is_active (s : Schedule) (current_time : DateTime) : Bool :=
  (match s.day_of_week with
   | some d => current_time.weekday == d
   | none => true) && s.timeCheck current_time

/-- `Scheduler.get_active_schedule` (source lines 234-249): first
matching schedule in priority order, else the default schedule. -/
def get_active_schedule (schedules : List Schedule) (default_schedule : Schedule)
    (now : DateTime) : Schedule :=
  match schedules with
  | [] => default_schedule
  | s :: rest =>
    if s.is_active now then s else get_active_schedule rest default_schedule now

/-- Spec-side matching predicate, written from the spec's words for
`activeWindow`: "a window matches when `(day unset OR now.weekday == day)`
AND `(no time bounds) OR (bounds set AND now.time ∈ [start,end) with
wraparound ...)`"; with exactly one bound set neither disjunct holds. -/
def specMatches (s : Schedule) (now : DateTime) : Bool :=
  (match s.day_of_week with
   | some d => now.weekday == d
   | none => true) &&
  (match s.start_time, s.end_time with
   | none, none => true
   | some start_t, some end_t =>
     if start_t.ble end_t then
       start_t.ble now.timeOfDay && now.timeOfDay.blt end_t
     else
       start_t.ble now.timeOfDay || now.timeOfDay.blt end_t
   | _, _ => false)

/-- Identity of the Python `Schedule` object the scheduler currently
holds: either an element of `self.schedules` (by position) or the
distinguished `self.default_schedule` object. `Schedule` defines no
`__eq__`, so `check_schedule_change`'s `!=` compares object identity;
distinct references are unequal even when field-equal. -/
inductive SchedRef where
  | window (i : Nat)
  | fallback
deriving DecidableEq, Repr

/-- The `Schedule` value a reference denotes. -/
def refValue (schedules : List Schedule) (default_schedule : Schedule) :
    SchedRef → Schedule
  | .window i => schedules.getD i default_schedule
  | .fallback => default_schedule

/-- A reference that can actually occur: an in-range index or the default. -/
def ValidRef (schedules : List Schedule) : SchedRef → Prop
  | .window i => i < schedules.length
  | .fallback => True

/-- `get_active_schedule` at the level of object identity: which object
the loop returns. -/
def get_active_ref (now : DateTime) : List Schedule → SchedRef
  | [] => .fallback
  | s :: rest =>
    if s.is_active now then .window 0
    else
      match get_active_ref now rest with
      | .window i => .window (i + 1)
      | .fallback => .fallback

/-- Scheduler state for `check_schedule_change`: the schedule list, the
default schedule, and the identity of `self.current_schedule`. -/
structure SchedulerState where
  schedules : List Schedule
  default_schedule : Schedule
  current_schedule : SchedRef
deriving Repr

/-- `Scheduler.check_schedule_change` (source lines 251-266): recompute
the active schedule; on an identity change store it and report `true`,
else report `false`. -/
def check_schedule_change (st : SchedulerState) (now : DateTime) :
    Bool × SchedulerState :=
  let new_schedule := get_active_ref now st.schedules
  if new_schedule ≠ st.current_schedule then
    (true, { st with current_schedule := new_schedule })
  else
    (false, st)

/-- The "Sunday Service" window of the spec's worked example:
day = Sunday (6), 08:00-13:30. -/
def sundayWindow : Schedule :=
  { name := "Sunday Service", folder := "sunday_service",
    transition_type := "Stinger Transition", transition_offset := 2,
    day_of_week := some 6,
    start_time := some ⟨8, 0⟩, end_time := some ⟨13, 30⟩ }

/-- The default window: no day or time restriction. -/
def defaultWindow : Schedule :=
  { name := "Default", folder := "default",
    transition_type := "Fade", transition_offset := 0,
    day_of_week := none, start_time := none, end_time := none }

theorem is_active_eq_specMatches (s : Schedule) (now : DateTime)
    (hb : s.start_time.isSome = s.end_time.isSome) :
    s.is_active now = specMatches s now := by
  unfold Schedule.is_active specMatches Schedule.timeCheck
  cases hs : s.start_time <;> cases he : s.end_time <;>
    simp_all [Option.isNone, Option.isSome]

theorem get_active_schedule_eq_find (schedules : List Schedule)
    (default_schedule : Schedule) (now : DateTime)
    (hb : ∀ s ∈ schedules, s.start_time.isSome = s.end_time.isSome) :
    get_active_schedule schedules default_schedule now =
      ((schedules.find? (fun s => specMatches s now)).getD default_schedule) := by
  induction schedules with
  | nil => rfl
  | cons s rest ih =>
    have hs : s.is_active now = specMatches s now :=
      is_active_eq_specMatches s now (hb s (List.mem_cons_self s rest))
    have hrest := ih (fun t ht => hb t (List.mem_cons_of_mem s ht))
    rw [get_active_schedule, List.find?]
    by_cases h : specMatches s now = true
    · simp [hs, h]
    · have h' : specMatches s now = false := by
        cases hsp : specMatches s now
        · rfl
        · exact absurd hsp h
      simp [hs, h', hrest]

/-- C1: `activeWindow(now)` returns the first window (in priority order)
matching the spec's day/time predicate — day unset or equal to `now`'s
weekday, and time bounds absent or `now.time` in `[start, end)` with
midnight wraparound — falling back to the default window when none
matches (stated for windows whose time bounds are both set or both
unset); and on the worked example (day = Sunday(6), 08:00-13:30):
Sunday 07:59, Sunday 13:30 and Monday 10:00 select the default while
Sunday 08:00 and Sunday 13:29 select the window. -/
theorem activeWindow_matches_spec (schedules : List Schedule)
    (default_schedule : Schedule) (now : DateTime)
    (hb : ∀ s ∈ schedules, s.start_time.isSome = s.end_time.isSome) :
    get_active_schedule schedules default_schedule now =
      ((schedules.find? (fun s => specMatches s now)).getD default_schedule)
    ∧ get_active_schedule [sundayWindow] defaultWindow ⟨6, ⟨7, 59⟩⟩ = defaultWindow
    ∧ get_active_schedule [sundayWindow] defaultWindow ⟨6, ⟨8, 0⟩⟩ = sundayWindow
    ∧ get_active_schedule [sundayWindow] defaultWindow ⟨6, ⟨13, 29⟩⟩ = sundayWindow
    ∧ get_active_schedule [sundayWindow] defaultWindow ⟨6, ⟨13, 30⟩⟩ = defaultWindow
    ∧ get_active_schedule [sundayWindow] defaultWindow ⟨0, ⟨10, 0⟩⟩ = defaultWindow := by
  refine ⟨get_active_schedule_eq_find schedules default_schedule now hb, ?_, ?_, ?_, ?_, ?_⟩
  all_goals decide

/-- Witness for C1 at a concrete schedule list and instant. -/
theorem activeWindow_matches_spec_witness :
    get_active_schedule [sundayWindow] defaultWindow ⟨6, ⟨9, 0⟩⟩ =
      ((([sundayWindow].find? (fun s => specMatches s ⟨6, ⟨9, 0⟩⟩))).getD defaultWindow) :=
  (activeWindow_matches_spec [sundayWindow] defaultWindow ⟨6, ⟨9, 0⟩⟩
    (by decide)).1

/-- C10: a window with exactly one time bound set ignores the time
restriction entirely: it is active exactly when its day restriction (if
any) is satisfied. -/
theorem one_sided_time_bounds_ignored (s : Schedule) (now : DateTime)
    (h : s.start_time.isSome ≠ s.end_time.isSome) :
    s.is_active now =
      (match s.day_of_week with
       | some d => now.weekday == d
       | none => true) := by
  unfold Schedule.is_active Schedule.timeCheck
  cases hs : s.start_time <;> cases he : s.end_time <;>
    simp_all [Option.isNone, Option.isSome]

/-- Witness for C10: a window with only a start time, no day, is active
at midnight. -/
theorem one_sided_time_bounds_ignored_witness :
    ({ name := "odd", folder := "f", transition_type := "Fade",
       transition_offset := 0, day_of_week := none,
       start_time := some ⟨9, 0⟩, end_time := none } : Schedule).is_active
      ⟨2, ⟨0, 0⟩⟩ = true :=
  one_sided_time_bounds_ignored _ ⟨2, ⟨0, 0⟩⟩ (by decide)

theorem refValue_get_active_ref (now : DateTime) (schedules : List Schedule)
    (default_schedule : Schedule) :
    refValue schedules default_schedule (get_active_ref now schedules) =
      get_active_schedule schedules default_schedule now := by
  induction schedules with
  | nil => rfl
  | cons s rest ih =>
    rw [get_active_ref, get_active_schedule]
    by_cases h : s.is_active now = true
    · simp [h, refValue]
    · have h' : s.is_active now = false := by
        cases ha : s.is_active now
        · rfl
        · exact absurd ha h
      simp only [h', if_false, Bool.false_eq_true]
      cases hr : get_active_ref now rest with
      | window i =>
        have := ih
        rw [hr] at this
        simpa [refValue] using this
      | fallback =>
        have := ih
        rw [hr] at this
        simpa [refValue] using this

theorem get_active_ref_valid (now : DateTime) (schedules : List Schedule) :
    ValidRef schedules (get_active_ref now schedules) := by
  induction schedules with
  | nil => trivial
  | cons s rest ih =>
    rw [get_active_ref]
    by_cases h : s.is_active now = true
    · simp only [h, if_true]
      show 0 < (s :: rest).length
      simp
    · have h' : s.is_active now = false := by
        cases ha : s.is_active now
        · rfl
        · exact absurd ha h
      simp only [h', Bool.false_eq_true, if_false]
      cases hr : get_active_ref now rest with
      | window i =>
        rw [hr] at ih
        show i + 1 < (s :: rest).length
        simpa [ValidRef, Nat.succ_lt_succ_iff] using ih
      | fallback => trivial

/-- C9: `check_schedule_change` is edge-triggered: provided the scheduler's
window objects carry pairwise distinct values (true of every configuration
this program builds, where the one optional window always has time bounds
and the default never does), it reports a change exactly when the newly
computed active window differs by value from the previously stored one,
stores the new window when it does, and leaves the state untouched when
the values coincide. -/
theorem check_change_edge_triggered (st : SchedulerState) (now : DateTime)
    (hcur : ValidRef st.schedules st.current_schedule)
    (hinj : ∀ r1 r2, ValidRef st.schedules r1 → ValidRef st.schedules r2 →
      refValue st.schedules st.default_schedule r1 =
        refValue st.schedules st.default_schedule r2 → r1 = r2) :
    ((check_schedule_change st now).1 = true ↔
      get_active_schedule st.schedules st.default_schedule now ≠
        refValue st.schedules st.default_schedule st.current_schedule)
    ∧ ((check_schedule_change st now).1 = true →
        refValue st.schedules st.default_schedule
            (check_schedule_change st now).2.current_schedule =
          get_active_schedule st.schedules st.default_schedule now)
    ∧ ((check_schedule_change st now).1 = false →
        (check_schedule_change st now).2 = st) := by
  by_cases h : get_active_ref now st.schedules = st.current_schedule
  · have hval : get_active_schedule st.schedules st.default_schedule now =
        refValue st.schedules st.default_schedule st.current_schedule := by
      rw [← refValue_get_active_ref now st.schedules st.default_schedule, h]
    have hc : check_schedule_change st now = (false, st) := by
      rw [check_schedule_change]
      simp [h]
    refine ⟨?_, ?_, ?_⟩
    · rw [hc]
      simp [hval]
    · rw [hc]
      simp
    · rw [hc]
      intro
      rfl
  · have hval : get_active_schedule st.schedules st.default_schedule now ≠
        refValue st.schedules st.default_schedule st.current_schedule := by
      intro heq
      exact h (hinj _ _ (get_active_ref_valid now st.schedules) hcur
        (by rw [refValue_get_active_ref]; exact heq))
    have hc : check_schedule_change st now =
        (true, { st with current_schedule := get_active_ref now st.schedules }) := by
      rw [check_schedule_change]
      simp [h]
    refine ⟨?_, ?_, ?_⟩
    · rw [hc]
      simp [hval]
    · rw [hc]
      intro
      exact refValue_get_active_ref now st.schedules st.default_schedule
    · rw [hc]
      intro hfalse
      exact absurd hfalse (by simp)

/-- Witness for C9: from a stored default on a Sunday morning, the Sunday
window takes over and a change is reported. -/
theorem check_change_edge_triggered_witness :
    (check_schedule_change ⟨[sundayWindow], defaultWindow, .fallback⟩
        ⟨6, ⟨9, 0⟩⟩).1 = true := by
  have hinj : ∀ r1 r2, ValidRef [sundayWindow] r1 → ValidRef [sundayWindow] r2 →
      refValue [sundayWindow] defaultWindow r1 =
        refValue [sundayWindow] defaultWindow r2 → r1 = r2 := by
    intro r1 r2 h1 h2 heq
    cases r1 with
    | window i =>
      have hi : i = 0 := Nat.lt_one_iff.mp h1
      subst hi
      cases r2 with
      | window j =>
        have hj : j = 0 := Nat.lt_one_iff.mp h2
        subst hj
        rfl
      | fallback => exact absurd heq (by decide)
    | fallback =>
      cases r2 with
      | window j =>
        have hj : j = 0 := Nat.lt_one_iff.mp h2
        subst hj
        exact absurd heq (by decide)
      | fallback => rfl
  exact (check_change_edge_triggered ⟨[sundayWindow], defaultWindow, .fallback⟩
      ⟨6, ⟨9, 0⟩⟩ trivial hinj).1.mpr (by decide)

/-- `MediaFile` from `content_manager.py`: filename, classification flags,
resolved duration (0 until the duration pass runs), and the lightweight
(size, mtime) metadata used for change detection. -/
structure MediaFile where
  filename : String
  is_video : Bool
  is_image : Bool
  duration : Rat
  file_size : Nat
  file_mtime : Rat
deriving DecidableEq, Repr

/-- A zero `MediaFile`, used only as the `getD` default for list reads
the source performs after an explicit bounds check. -/
def blankMedia : MediaFile :=
  { filename := "", is_video := false, is_image := false,
    duration := 0, file_size := 0, file_mtime := 0 }

/-- `MediaFile.get_scene_name`. -/
def MediaFile.get_scene_name (m : MediaFile) : String :=
  m.filename ++ "_scene"

/-- `MediaFile.get_source_name`. -/
def MediaFile.get_source_name (m : MediaFile) : String :=
  m.filename ++ "_source"

/-- The configuration fields the content manager reads. -/
structure Settings where
  SLIDE_TRANSITION_SECONDS : Rat
  MAX_VIDEO_DURATION : Rat
  TRANSITION_START_OFFSET : Rat
  VIDEO_WIDTH : Nat
  VIDEO_HEIGHT : Nat
deriving DecidableEq, Repr

/-- One call against the external OBS controller. -/
inductive Op where
  | create_scene (name : String)
  | remove_scene (name : String)
  | create_input (scene_name input_name input_kind : String)
  | remove_input (name : String)
  | set_current_scene (name : String)
  | set_input_mute (name : String) (muted : Bool)
  | set_scene_item_transform (scene_name : String) (item_id : Nat)
      (boundsWidth boundsHeight : Nat)
deriving DecidableEq, Repr

/-- The external controller's collections, as its list calls report them. -/
structure ObsState where
  scenes : List String
  inputs : List String
deriving DecidableEq, Repr

/-- Add a name to a string set embedded as a list. -/
def addName (l : List String) (n : String) : List String :=
  if n ∈ l then l else l ++ [n]

/-- Remove a name from a string set embedded as a list. -/
def removeName (l : List String) (n : String) : List String :=
  l.filter (fun x => x ≠ n)

/-- `ContentManager`'s mutable fields. -/
structure CMState where
  media_files : List MediaFile
  current_index : Nat
  playback_start_time : Rat
  current_scene : Option String
  rotation_active : Bool
  managed_scenes : List String
  managed_inputs : List String
  content_hash : String
deriving DecidableEq, Repr

/-- The `f"{filename}:{size}:{mtime}"` line of `_calculate_content_hash`. -/
def entryLine (m : MediaFile) : String :=
  m.filename ++ ":" ++ toString m.file_size ++ ":" ++ toString m.file_mtime

/-- String comparison used to embed Python's `sorted` on strings. -/
def strLe (a b : String) : Bool :=
  decide (a ≤ b)

/-- `ContentManager._calculate_content_hash` (source lines 190-197): the
`"|"`-join of the sorted `(filename, size, mtime)` lines. -/
def _calculate_content_hash (media_files : List MediaFile) : String :=
  String.intercalate "|" ((media_files.map entryLine).mergeSort strLe)

/-- `ContentManager._cleanup_old_content` (source lines 199-213): remove
every managed scene and managed input, discarding each from its set. -/
def _cleanup_old_content (st : CMState) (obs : ObsState) :
    CMState × ObsState × List Op :=
  ( { st with managed_scenes := [], managed_inputs := [] },
    { scenes := obs.scenes.filter (fun s => s ∉ st.managed_scenes),
      inputs := obs.inputs.filter (fun s => s ∉ st.managed_inputs) },
    st.managed_scenes.map Op.remove_scene ++ st.managed_inputs.map Op.remove_input )

/-- Does `needle` occur at the head of `hay`? -/
def leadsWith : List Char → List Char → Bool
  | [], _ => true
  | _ :: _, [] => false
  | a :: as, b :: bs => a == b && leadsWith as bs

/-- Python's `needle in hay` substring test, on character lists. -/
def containsSub (hay needle : List Char) : Bool :=
  leadsWith needle hay ||
    match hay with
    | [] => false
    | _ :: t => containsSub t needle

/-- The scene-name pattern of `_cleanup_all_digital_signage_content`
(source lines 242-245). -/
def signageScenePattern (scene_name : String) : Bool :=
  scene_name.endsWith "_scene" ||
  scene_name == "waiting_for_content_scene" ||
  containsSub scene_name.toLower.toList "slideshow".toList ||
  containsSub scene_name.toLower.toList "digital_signage".toList

/-- `ContentManager._cleanup_all_digital_signage_content` (source lines
215-257): the bootstrap full sweep — remove every listed input ending in
`_source`, then every listed scene matching the naming pattern. -/
def _cleanup_all_digital_signage_content (st : CMState) (obs : ObsState) :
    CMState × ObsState × List Op :=
  ( st,
    { scenes := obs.scenes.filter (fun s => !signageScenePattern s),
      inputs := obs.inputs.filter (fun s => !s.endsWith "_source") },
    (obs.inputs.filter (fun s => s.endsWith "_source")).map Op.remove_input ++
      (obs.scenes.filter signageScenePattern).map Op.remove_scene )

/-- `ContentManager._cleanup_orphaned_scenes` (source lines 259-289):
remove every listed scene outside `managed_scenes ∪ {waiting scene}`. -/
def _cleanup_orphaned_scenes (st : CMState) (obs : ObsState) :
    CMState × ObsState × List Op :=
  let valid_scenes := addName st.managed_scenes "waiting_for_content_scene"
  ( st,
    { obs with scenes := obs.scenes.filter (fun s => s ∈ valid_scenes) },
    (obs.scenes.filter (fun s => s ∉ valid_scenes)).map Op.remove_scene )

/-- The per-entry outcome of `_calculate_media_durations` (source lines
394-424): images take the configured slide duration, videos the probed
duration capped at the maximum, and a failed probe the 10-second
fallback; other entries are untouched. -/
def resolveEntry (settings : Settings) (probe : String → Option Rat)
    (m : MediaFile) : MediaFile :=
  if m.is_image then
    { m with duration := settings.SLIDE_TRANSITION_SECONDS }
  else if m.is_video then
    match probe m.filename with
    | some d =>
      if d > settings.MAX_VIDEO_DURATION then
        { m with duration := settings.MAX_VIDEO_DURATION }
      else
        { m with duration := d }
    | none => { m with duration := 10 }
  else m

/-- `ContentManager._calculate_media_durations` (source lines 382-433):
resolve every entry's duration; also report which files were probed
(the probe runs only in the video branch). -/
def _calculate_media_durations (settings : Settings)
    (probe : String → Option Rat) (media_files : List MediaFile) :
    List MediaFile × List String :=
  ( media_files.map (resolveEntry settings probe),
    (media_files.filter (fun m => !m.is_image && m.is_video)).map
      MediaFile.filename )

/-- `ContentManager._create_scene_for_media` (source lines 299-347):
create the scene, record it as managed, then (for a known kind) create
the source inside it, record it, mute it when it is a video, and apply
the canvas transform when the item id resolves. -/
def _create_scene_for_media (settings : Settings)
    (item_id : String → String → Option Nat) (st : CMState) (obs : ObsState)
    (m : MediaFile) : CMState × ObsState × List Op :=
  let scene_name := m.get_scene_name
  let source_name := m.get_source_name
  let st1 := { st with managed_scenes := addName st.managed_scenes scene_name }
  let obs1 := { obs with scenes := addName obs.scenes scene_name }
  if !m.is_image && !m.is_video then
    (st1, obs1, [Op.create_scene scene_name])
  else
    let input_kind := if m.is_image then "image_source" else "ffmpeg_source"
    let st2 := { st1 with managed_inputs := addName st1.managed_inputs source_name }
    let obs2 := { obs1 with inputs := addName obs1.inputs source_name }
    let muteOps := if m.is_video then [Op.set_input_mute source_name true] else []
    let transformOps :=
      match item_id scene_name source_name with
      | some i => [Op.set_scene_item_transform scene_name i
          settings.VIDEO_WIDTH settings.VIDEO_HEIGHT]
      | none => []
    (st2, obs2,
      [Op.create_scene scene_name,
       Op.create_input scene_name source_name input_kind] ++ muteOps ++ transformOps)

/-- The loop body of `_create_scenes_for_media` (source lines 291-297). -/
def createScenesLoop (settings : Settings)
    (item_id : String → String → Option Nat) :
    List MediaFile → CMState → ObsState → CMState × ObsState × List Op
  | [], st, obs => (st, obs, [])
  | m :: rest, st, obs =>
    let r1 := _create_scene_for_media settings item_id st obs m
    let r2 := createScenesLoop settings item_id rest r1.1 r1.2.1
    (r2.1, r2.2.1, r1.2.2 ++ r2.2.2)

/-- `ContentManager._create_scenes_for_media`. -/
def _create_scenes_for_media (settings : Settings)
    (item_id : String → String → Option Nat) (st : CMState) (obs : ObsState) :
    CMState × ObsState × List Op :=
  createScenesLoop settings item_id st.media_files st obs

/-- `ContentManager._switch_to_media` (source lines 597-613): out-of-range
indices are ignored; otherwise the entry's scene is activated and
remembered. -/
def _switch_to_media (st : CMState) (index : Nat) : CMState × List Op :=
  if index ≥ st.media_files.length then
    (st, [])
  else
    let scene_name := (st.media_files.getD index blankMedia).get_scene_name
    ({ st with current_scene := some scene_name },
     [Op.set_current_scene scene_name])

/-- `ContentManager._activate_waiting_scene` (source lines 533-541). -/
def _activate_waiting_scene (st : CMState) : CMState × List Op :=
  ({ st with current_scene := some "waiting_for_content_scene",
             rotation_active := false },
   [Op.set_current_scene "waiting_for_content_scene"])

/-- `ContentManager.process_content_rotation` (source lines 543-595): the
rotation tick. Inactive rotation or an empty catalog is a no-op; an
out-of-range cursor is first reset to 0; the current entry's switch time
is `duration - offset` clamped at 0 for videos and the full duration for
images; once `elapsed >= switch_time` the cursor advances modulo the
catalog length, the new entry's scene is activated, and the start
timestamp is reset to `now`. -/
def process_content_rotation (settings : Settings) (st : CMState) (now : Rat) :
    CMState × List Op :=
  if !st.rotation_active || st.media_files.isEmpty then
    (st, [])
  else
    let elapsed_time := now - st.playback_start_time
    let idx := if st.current_index ≥ st.media_files.length then 0 else st.current_index
    let current_media := st.media_files.getD idx blankMedia
    let transition_offset := settings.TRANSITION_START_OFFSET
    let switch_time :=
      if current_media.is_video then
        let s := current_media.duration - transition_offset
        if s < 0 then 0 else s
      else
        current_media.duration
    if elapsed_time ≥ switch_time then
      let next_index := (idx + 1) % st.media_files.length
      let r := _switch_to_media { st with current_index := idx } next_index
      ({ r.1 with current_index := next_index, playback_start_time := now },
       r.2)
    else
      ({ st with current_index := idx }, [])

/-- `ContentManager.on_file_deleted` (source lines 627-658): remove the
derived scene and source when managed, drop the entry from the catalog,
and when the deleted item was the active scene and the catalog stayed
non-empty, restart rotation from index 0. -/
def on_file_deleted (st : CMState) (obs : ObsState) (filename : String)
    (now : Rat) : CMState × ObsState × List Op :=
  let scene_name := filename ++ "_scene"
  let source_name := filename ++ "_source"
  let sceneManaged := scene_name ∈ st.managed_scenes
  let st1 :=
    if sceneManaged then
      { st with managed_scenes := removeName st.managed_scenes scene_name }
    else st
  let obs1 :=
    if sceneManaged then
      { obs with scenes := removeName obs.scenes scene_name }
    else obs
  let ops1 : List Op := if sceneManaged then [Op.remove_scene scene_name] else []
  let inputManaged := source_name ∈ st1.managed_inputs
  let st2 :=
    if inputManaged then
      { st1 with managed_inputs := removeName st1.managed_inputs source_name }
    else st1
  let obs2 :=
    if inputManaged then
      { obs1 with inputs := removeName obs1.inputs source_name }
    else obs1
  let ops2 : List Op := if inputManaged then [Op.remove_input source_name] else []
  let st3 := { st2 with
    media_files := st2.media_files.filter (fun mf => mf.filename ≠ filename) }
  if st3.current_scene = some scene_name ∧ st3.media_files ≠ [] then
    let r := _switch_to_media { st3 with current_index := 0 } 0
    ({ r.1 with playback_start_time := now }, obs2, ops1 ++ ops2 ++ r.2)
  else
    (st3, obs2, ops1 ++ ops2)

/-- Filename comparison used to embed `sort(key=lambda x: x.filename.lower())`. -/
def fileLe (a b : MediaFile) : Bool :=
  decide (a.filename.toLower ≤ b.filename.toLower)

/-- The body of `scan_and_update_content` past the change-detection guard
(source lines 108-149): record the new fingerprint, run the bootstrap or
incremental cleanup, install the scanned catalog, and either show the
waiting scene (empty catalog) or sort, resolve durations, create scenes,
sweep orphans, and restart rotation at index 0. -/
def reconcile_content (settings : Settings) (probe : String → Option Rat)
    (item_id : String → String → Option Nat) (st : CMState) (obs : ObsState)
    (new_media_files : List MediaFile) (now : Rat) :
    CMState × ObsState × List Op :=
  let st0 := { st with content_hash := _calculate_content_hash new_media_files }
  let c :=
    if st0.managed_scenes = [] ∧ st0.managed_inputs = [] then
      _cleanup_all_digital_signage_content st0 obs
    else
      _cleanup_old_content st0 obs
  let st1 := { c.1 with media_files := new_media_files }
  if st1.media_files = [] then
    let w := _activate_waiting_scene st1
    (w.1, c.2.1, c.2.2 ++ w.2)
  else
    let sorted_st := { st1 with media_files := st1.media_files.mergeSort fileLe }
    let durations :=
      _calculate_media_durations settings probe sorted_st.media_files
    let st2 := { sorted_st with media_files := durations.1 }
    let cr := _create_scenes_for_media settings item_id st2 c.2.1
    let orp := _cleanup_orphaned_scenes cr.1 cr.2.1
    let st3 := { orp.1 with current_index := 0, rotation_active := true }
    if st3.media_files ≠ [] then
      let sw := _switch_to_media st3 0
      ({ sw.1 with playback_start_time := now }, orp.2.1,
       c.2.2 ++ cr.2.2 ++ orp.2.2 ++ sw.2)
    else
      (st3, orp.2.1, c.2.2 ++ cr.2.2 ++ orp.2.2)

/-- `ContentManager.scan_and_update_content` (source lines 93-152), taking
the scan result as input: when the fingerprint is unchanged and the old
catalog is non-empty, return with no effect; otherwise reconcile. -/
def scan_and_update_content (settings : Settings) (probe : String → Option Rat)
    (item_id : String → String → Option Nat) (st : CMState) (obs : ObsState)
    (new_media_files : List MediaFile) (now : Rat) :
    CMState × ObsState × List Op :=
  if _calculate_content_hash new_media_files = st.content_hash ∧
      st.media_files ≠ [] then
    (st, obs, [])
  else
    reconcile_content settings probe item_id st obs new_media_files now

theorem strLe_antisymm_eq {a b : String} (h1 : strLe a b = true)
    (h2 : strLe b a = true) : a = b := by
  unfold strLe at h1 h2
  exact le_antisymm (of_decide_eq_true h1) (of_decide_eq_true h2)

theorem mergeSort_strings_eq_of_perm (l1 l2 : List String)
    (h : l1.Perm l2) : l1.mergeSort strLe = l2.mergeSort strLe := by
  haveI : IsAntisymm String (fun a b => strLe a b = true) :=
    ⟨fun _ _ => strLe_antisymm_eq⟩
  refine List.eq_of_perm_of_sorted (r := fun a b => strLe a b = true)
    ((List.mergeSort_perm l1 strLe).trans
      (h.trans (List.mergeSort_perm l2 strLe).symm)) ?_ ?_
  · exact List.sorted_mergeSort
      (fun a b c hab hbc => by
        unfold strLe at hab hbc ⊢
        exact decide_eq_true (le_trans (of_decide_eq_true hab) (of_decide_eq_true hbc)))
      (fun a b => by
        unfold strLe
        rcases le_total a b with hle | hle
        · simp [hle]
        · simp [hle])
      l1
  · exact List.sorted_mergeSort
      (fun a b c hab hbc => by
        unfold strLe at hab hbc ⊢
        exact decide_eq_true (le_trans (of_decide_eq_true hab) (of_decide_eq_true hbc)))
      (fun a b => by
        unfold strLe
        rcases le_total a b with hle | hle
        · simp [hle]
        · simp [hle])
      l2

/-- The `(filename, size, mtime)` triple of an entry. -/
def fileKey (m : MediaFile) : String × Nat × Rat :=
  (m.filename, m.file_size, m.file_mtime)

/-- The hash line as a function of the triple alone. -/
def keyLine (k : String × Nat × Rat) : String :=
  k.1 ++ ":" ++ toString k.2.1 ++ ":" ++ toString k.2.2

/-- C4: the catalog fingerprint depends only on the multiset of
`(filename, size, mtime)` triples: two catalogs whose triples are
permutations of each other hash identically, regardless of scan order. -/
theorem fingerprint_perm_invariant (l1 l2 : List MediaFile)
    (h : (l1.map fileKey).Perm (l2.map fileKey)) :
    _calculate_content_hash l1 = _calculate_content_hash l2 := by
  unfold _calculate_content_hash
  congr 1
  apply mergeSort_strings_eq_of_perm
  have h1 : l1.map entryLine = (l1.map fileKey).map keyLine := by
    rw [List.map_map]; rfl
  have h2 : l2.map entryLine = (l2.map fileKey).map keyLine := by
    rw [List.map_map]; rfl
  rw [h1, h2]
  exact h.map keyLine

/-- A sample video entry. -/
def mfVid : MediaFile :=
  { filename := "a.mp4", is_video := true, is_image := false,
    duration := 0, file_size := 5, file_mtime := 100 }

/-- A sample image entry. -/
def mfImg : MediaFile :=
  { filename := "b.jpg", is_video := false, is_image := true,
    duration := 0, file_size := 7, file_mtime := 200 }

/-- Witness for C4: swapping the scan order of two files leaves the
fingerprint unchanged. -/
theorem fingerprint_perm_invariant_witness :
    _calculate_content_hash [mfVid, mfImg] =
      _calculate_content_hash [mfImg, mfVid] :=
  fingerprint_perm_invariant [mfVid, mfImg] [mfImg, mfVid]
    (List.Perm.swap (fileKey mfImg) (fileKey mfVid) [])

/-- C8: duration resolution. Per entry: an image gets the configured slide
duration and is never among the probed files; a video whose probe reports
`d` gets `min d MAX_VIDEO_DURATION`; a video whose probe fails (timeout,
missing tool, unparseable output — all reported as `none`) gets the
10-second fallback; and each entry's outcome depends only on its own probe
answer, so one bad file never aborts the pass for the rest. -/
theorem duration_resolution_spec (settings : Settings)
    (probe : String → Option Rat) (media_files : List MediaFile) :
    (_calculate_media_durations settings probe media_files).1 =
        media_files.map (resolveEntry settings probe)
    ∧ (∀ m ∈ media_files, m.is_image = true →
        resolveEntry settings probe m =
          { m with duration := settings.SLIDE_TRANSITION_SECONDS }
        ∧ m ∉ media_files.filter (fun x => !x.is_image && x.is_video))
    ∧ (∀ (m : MediaFile) (d : Rat), m.is_image = false → m.is_video = true →
        probe m.filename = some d →
        (resolveEntry settings probe m).duration =
          min d settings.MAX_VIDEO_DURATION)
    ∧ (∀ (m : MediaFile), m.is_image = false → m.is_video = true →
        probe m.filename = none →
        (resolveEntry settings probe m).duration = 10)
    ∧ (∀ (q : String → Option Rat) (m : MediaFile),
        q m.filename = probe m.filename →
        resolveEntry settings q m = resolveEntry settings probe m) := by
  refine ⟨rfl, ?_, ?_, ?_, ?_⟩
  · intro m _ hi
    refine ⟨by simp [resolveEntry, hi], ?_⟩
    intro hmem
    have := (List.mem_filter.mp hmem).2
    simp [hi] at this
  · intro m d hi hv hp
    unfold resolveEntry
    rw [hi, hv, hp]
    simp only [Bool.false_eq_true, if_false, if_true]
    rcases le_or_lt d settings.MAX_VIDEO_DURATION with h | h
    · rw [if_neg (not_lt.mpr h)]
      exact (min_eq_left h).symm
    · rw [if_pos h]
      exact (min_eq_right (le_of_lt h)).symm
  · intro m hi hv hp
    unfold resolveEntry
    rw [hi, hv, hp]
    simp
  · intro q m hq
    unfold resolveEntry
    rw [hq]

/-- The configuration defaults of `settings.py`. -/
def cfgW : Settings :=
  { SLIDE_TRANSITION_SECONDS := 8, MAX_VIDEO_DURATION := 900,
    TRANSITION_START_OFFSET := 2, VIDEO_WIDTH := 1920, VIDEO_HEIGHT := 1080 }

/-- A probe answering 1000s for `a.mp4` and failing elsewhere. -/
def probeW : String → Option Rat :=
  fun n => if n = "a.mp4" then some 1000 else none

/-- Witness for C8: the 1000-second video is capped at the 900-second
maximum. -/
theorem duration_resolution_spec_witness :
    (resolveEntry cfgW probeW mfVid).duration = min 1000 cfgW.MAX_VIDEO_DURATION :=
  (duration_resolution_spec cfgW probeW [mfVid]).2.2.1 mfVid 1000 rfl rfl rfl

/-- The rotation cursor as spec §3 reads it: 0 when the stored index is
out of range. -/
def normCursor (st : CMState) : Nat :=
  if st.current_index ≥ st.media_files.length then 0 else st.current_index

/-- The switch time of an entry, in the claim's terms. -/
def switchTime (settings : Settings) (m : MediaFile) : Rat :=
  if m.is_video then max 0 (m.duration - settings.TRANSITION_START_OFFSET)
  else m.duration

theorem clamp_eq_max (s : Rat) : (if s < 0 then 0 else s) = max 0 s := by
  split
  · exact (max_eq_left (le_of_lt (by assumption))).symm
  · exact (max_eq_right (not_lt.mp (by assumption))).symm

theorem process_content_rotation_eq (settings : Settings) (st : CMState)
    (now : Rat) (hactive : st.rotation_active = true)
    (hne : st.media_files ≠ []) :
    process_content_rotation settings st now =
      if now - st.playback_start_time ≥
          switchTime settings (st.media_files.getD (normCursor st) blankMedia) then
        ({ st with
            current_index := (normCursor st + 1) % st.media_files.length,
            playback_start_time := now,
            current_scene := some ((st.media_files.getD
              ((normCursor st + 1) % st.media_files.length) blankMedia).get_scene_name) },
         [Op.set_current_scene ((st.media_files.getD
            ((normCursor st + 1) % st.media_files.length) blankMedia).get_scene_name)])
      else
        ({ st with current_index := normCursor st }, []) := by
  have hlen : 0 < st.media_files.length := List.length_pos.mpr hne
  have hempty : st.media_files.isEmpty = false := by
    simp [List.isEmpty_iff, hne]
  have hnotge : ¬ ((normCursor st + 1) % st.media_files.length ≥
      st.media_files.length) :=
    not_le.mpr (Nat.mod_lt _ hlen)
  unfold normCursor at hnotge
  simp only [process_content_rotation, _switch_to_media, switchTime, normCursor,
    hactive, hempty, Bool.not_true, Bool.false_or, Bool.false_eq_true, if_false,
    clamp_eq_max, hnotge]

/-- C2: the rotation tick. With rotation active and a non-empty catalog,
the current entry's switch time is `max(0, duration - transition_offset)`
for a video and exactly `duration` for an image (`switchTime`); the clock
advances exactly when `now - start_timestamp >= switch_time`, and on
advancement the cursor becomes `(cursor + 1) mod len`, the new entry's
scene is activated externally, and the start timestamp resets to `now`
(the cursor reads as 0 when out of range, per the spec's RotationCursor
data model). -/
theorem rotation_tick_spec (settings : Settings) (st : CMState) (now : Rat)
    (hactive : st.rotation_active = true) (hne : st.media_files ≠ []) :
    (now - st.playback_start_time ≥
        switchTime settings (st.media_files.getD (normCursor st) blankMedia) →
      (process_content_rotation settings st now).1.current_index =
          (normCursor st + 1) % st.media_files.length
      ∧ (process_content_rotation settings st now).1.playback_start_time = now
      ∧ (process_content_rotation settings st now).2 =
          [Op.set_current_scene ((st.media_files.getD
            ((normCursor st + 1) % st.media_files.length) blankMedia).get_scene_name)])
    ∧ (now - st.playback_start_time <
        switchTime settings (st.media_files.getD (normCursor st) blankMedia) →
      (process_content_rotation settings st now).1.current_index = normCursor st
      ∧ (process_content_rotation settings st now).1.playback_start_time =
          st.playback_start_time
      ∧ (process_content_rotation settings st now).2 = []) := by
  rw [process_content_rotation_eq settings st now hactive hne]
  constructor
  · intro hadv
    rw [if_pos hadv]
    exact ⟨rfl, rfl, rfl⟩
  · intro hlt
    rw [if_neg (not_le.mpr hlt)]
    exact ⟨rfl, rfl, rfl⟩

/-- A 10-second video at the last index of a three-entry catalog. -/
def stRot : CMState :=
  { media_files :=
      [{ mfImg with duration := 8 },
       { filename := "c.jpg", is_video := false, is_image := true,
         duration := 8, file_size := 1, file_mtime := 1 },
       { mfVid with duration := 10 }],
    current_index := 2, playback_start_time := 0,
    current_scene := some "a.mp4_scene", rotation_active := true,
    managed_scenes := [], managed_inputs := [], content_hash := "" }

/-- Witness for C2: the video's switch time is 10 - 2 = 8; at elapsed 8
the clock advances and the cursor wraps from index 2 to 0. -/
theorem rotation_tick_spec_witness :
    (process_content_rotation cfgW stRot 8).1.current_index = 0
    ∧ (process_content_rotation cfgW stRot 8).1.playback_start_time = 8 := by
  have h := (rotation_tick_spec cfgW stRot 8 rfl (by decide)).1
    (by norm_num [switchTime, normCursor, stRot, cfgW, mfVid, List.getD])
  refine ⟨?_, h.2.1⟩
  have h1 := h.1
  norm_num [normCursor, stRot] at h1
  exact h1

theorem mem_addName {l : List String} {n x : String} :
    x ∈ addName l n ↔ x ∈ l ∨ x = n := by
  unfold addName
  split
  · constructor
    · exact fun h => Or.inl h
    · rintro (h | rfl)
      · exact h
      · assumption
  · simp [List.mem_append]

theorem mem_removeName {l : List String} {n x : String} :
    x ∈ removeName l n ↔ x ∈ l ∧ x ≠ n := by
  simp [removeName, List.mem_filter]

/-- The orphan-sweep example state: the engine manages `A_scene` and
`B_scene`. -/
def cmEx : CMState :=
  { media_files := [], current_index := 0, playback_start_time := 0,
    current_scene := none, rotation_active := false,
    managed_scenes := ["A_scene", "B_scene"], managed_inputs := [],
    content_hash := "" }

/-- The orphan-sweep example controller state: a human also created
`manually_created`. -/
def obsEx : ObsState :=
  { scenes := ["A_scene", "B_scene", "manually_created"], inputs := [] }

/-- C6: the orphan sweep deletes exactly the externally listed scenes
outside the managed set union the placeholder waiting scene, and no scene
inside that set; on the worked example with external scenes
{A_scene, B_scene, manually_created} and managed = {A_scene, B_scene},
exactly `manually_created` is removed and the others are retained. -/
theorem orphan_sweep_exact (st : CMState) (obs : ObsState) :
    (∀ s, Op.remove_scene s ∈ (_cleanup_orphaned_scenes st obs).2.2 ↔
      (s ∈ obs.scenes ∧ s ∉ st.managed_scenes ∧ s ≠ "waiting_for_content_scene"))
    ∧ (_cleanup_orphaned_scenes cmEx obsEx).2.2 =
        [Op.remove_scene "manually_created"]
    ∧ (_cleanup_orphaned_scenes cmEx obsEx).2.1.scenes = ["A_scene", "B_scene"] := by
  refine ⟨?_, by decide, by decide⟩
  intro s
  simp only [_cleanup_orphaned_scenes, List.mem_map, List.mem_filter,
    decide_eq_true_eq, Op.remove_scene.injEq]
  constructor
  · rintro ⟨a, ⟨ha, hnv⟩, rfl⟩
    rw [mem_addName] at hnv
    push_neg at hnv
    exact ⟨ha, hnv.1, hnv.2⟩
  · rintro ⟨ha, hnm, hnw⟩
    refine ⟨s, ⟨ha, ?_⟩, rfl⟩
    rw [mem_addName]
    push_neg
    exact ⟨hnm, hnw⟩

theorem switch_to_media_zero (st : CMState) (h : st.media_files ≠ []) :
    _switch_to_media st 0 =
      ({ st with current_scene := some ((st.media_files.getD 0 blankMedia).get_scene_name) },
       [Op.set_current_scene ((st.media_files.getD 0 blankMedia).get_scene_name)]) := by
  unfold _switch_to_media
  rw [if_neg (not_le.mpr (List.length_pos.mpr h))]

/-- C7: `removeEntry(filename)`. The derived scene and source are removed
externally only when recorded in `ManagedState`; both names are discarded
from the managed sets (other names untouched); the entry leaves the
catalog; and exactly when the deleted item was the currently active scene
and the catalog stayed non-empty, the cursor resets to 0, the entry at
index 0 is activated, and the start timestamp resets to `now` — otherwise
cursor and start timestamp are unchanged. -/
theorem on_file_deleted_spec (st : CMState) (obs : ObsState)
    (filename : String) (now : Rat) :
    ((on_file_deleted st obs filename now).2.2 =
      (if filename ++ "_scene" ∈ st.managed_scenes then
        [Op.remove_scene (filename ++ "_scene")] else []) ++
      (if filename ++ "_source" ∈ st.managed_inputs then
        [Op.remove_input (filename ++ "_source")] else []) ++
      (if st.current_scene = some (filename ++ "_scene") ∧
          st.media_files.filter (fun mf => mf.filename ≠ filename) ≠ [] then
        [Op.set_current_scene (((st.media_files.filter
          (fun mf => mf.filename ≠ filename)).getD 0 blankMedia).get_scene_name)]
      else []))
    ∧ (on_file_deleted st obs filename now).1.media_files =
        st.media_files.filter (fun mf => mf.filename ≠ filename)
    ∧ filename ++ "_scene" ∉ (on_file_deleted st obs filename now).1.managed_scenes
    ∧ filename ++ "_source" ∉ (on_file_deleted st obs filename now).1.managed_inputs
    ∧ (∀ x, x ≠ filename ++ "_scene" →
        (x ∈ (on_file_deleted st obs filename now).1.managed_scenes ↔
          x ∈ st.managed_scenes))
    ∧ (∀ x, x ≠ filename ++ "_source" →
        (x ∈ (on_file_deleted st obs filename now).1.managed_inputs ↔
          x ∈ st.managed_inputs))
    ∧ (st.current_scene = some (filename ++ "_scene") ∧
        st.media_files.filter (fun mf => mf.filename ≠ filename) ≠ [] →
        (on_file_deleted st obs filename now).1.current_index = 0
        ∧ (on_file_deleted st obs filename now).1.playback_start_time = now
        ∧ (on_file_deleted st obs filename now).1.current_scene =
            some (((st.media_files.filter (fun mf => mf.filename ≠ filename)).getD 0
              blankMedia).get_scene_name))
    ∧ (¬(st.current_scene = some (filename ++ "_scene") ∧
         st.media_files.filter (fun mf => mf.filename ≠ filename) ≠ []) →
        (on_file_deleted st obs filename now).1.current_index = st.current_index
        ∧ (on_file_deleted st obs filename now).1.playback_start_time =
            st.playback_start_time) := by
  by_cases h3 : st.current_scene = some (filename ++ "_scene") ∧
      st.media_files.filter (fun mf => mf.filename ≠ filename) ≠ []
  · obtain ⟨h3a, h3b⟩ := h3
    have hex : ∃ x ∈ st.media_files, ¬x.filename = filename := by
      simpa using h3b
    by_cases h1 : filename ++ "_scene" ∈ st.managed_scenes <;>
      by_cases h2 : filename ++ "_source" ∈ st.managed_inputs <;>
      simp [on_file_deleted, switch_to_media_zero, h1, h2, h3a, hex, mem_removeName] <;>
      tauto
  · have hno : ¬(st.current_scene = some (filename ++ "_scene") ∧
        ∃ x ∈ st.media_files, ¬x.filename = filename) := by
      simpa using h3
    by_cases h1 : filename ++ "_scene" ∈ st.managed_scenes <;>
      by_cases h2 : filename ++ "_source" ∈ st.managed_inputs <;>
      simp [on_file_deleted, h1, h2, hno, mem_removeName] <;>
      tauto

/-- A state rotating `a.mp4` (managed, currently active) and `b.jpg`. -/
def stDel : CMState :=
  { media_files := [{ mfVid with duration := 10 }, { mfImg with duration := 8 }],
    current_index := 0, playback_start_time := 0,
    current_scene := some "a.mp4_scene", rotation_active := true,
    managed_scenes := ["a.mp4_scene", "b.jpg_scene"],
    managed_inputs := ["a.mp4_source", "b.jpg_source"], content_hash := "" }

/-- Witness for C7: deleting the currently active `a.mp4` resets the
cursor to 0 and the start timestamp to `now`. -/
theorem on_file_deleted_spec_witness :
    (on_file_deleted stDel obsEx "a.mp4" 7).1.current_index = 0
    ∧ (on_file_deleted stDel obsEx "a.mp4" 7).1.playback_start_time = 7 := by
  have h := (on_file_deleted_spec stDel obsEx "a.mp4" 7).2.2.2.2.2.2.1
    ⟨by decide, by decide⟩
  exact ⟨h.1, h.2.1⟩

/-- C3: a second `apply` whose catalog hashes to the stored fingerprint,
when the previously applied catalog was non-empty, performs nothing: no
external operations, and the `ManagedState`, catalog, cursor and the
controller are left exactly as they were; and the skip requires both
conditions — with an empty old catalog, or a differing fingerprint, the
full reconciliation body runs instead. -/
theorem apply_skip_idempotent (settings : Settings) (probe : String → Option Rat)
    (item_id : String → String → Option Nat) (st : CMState) (obs : ObsState)
    (new_media_files : List MediaFile) (now : Rat) :
    (_calculate_content_hash new_media_files = st.content_hash →
      st.media_files ≠ [] →
      scan_and_update_content settings probe item_id st obs new_media_files now =
        (st, obs, []))
    ∧ (st.media_files = [] →
        scan_and_update_content settings probe item_id st obs new_media_files now =
          reconcile_content settings probe item_id st obs new_media_files now)
    ∧ (_calculate_content_hash new_media_files ≠ st.content_hash →
        scan_and_update_content settings probe item_id st obs new_media_files now =
          reconcile_content settings probe item_id st obs new_media_files now) := by
  refine ⟨?_, ?_, ?_⟩
  · intro h1 h2
    unfold scan_and_update_content
    rw [if_pos ⟨h1, h2⟩]
  · intro h
    unfold scan_and_update_content
    rw [if_neg (fun hc => hc.2 h)]
  · intro h
    unfold scan_and_update_content
    rw [if_neg (fun hc => h hc.1)]

/-- A state whose stored fingerprint already describes the catalog
`[mfVid]` and whose applied catalog is non-empty. -/
def stSkip : CMState :=
  { media_files := [{ mfVid with duration := 10 }],
    current_index := 0, playback_start_time := 0,
    current_scene := some "a.mp4_scene", rotation_active := true,
    managed_scenes := ["a.mp4_scene"], managed_inputs := ["a.mp4_source"],
    content_hash := _calculate_content_hash [mfVid] }

/-- Witness for C3: re-applying the unchanged catalog `[mfVid]` issues no
operations and changes nothing. -/
theorem apply_skip_idempotent_witness :
    scan_and_update_content cfgW probeW (fun _ _ => none) stSkip obsEx [mfVid] 0 =
      (stSkip, obsEx, []) :=
  (apply_skip_idempotent cfgW probeW (fun _ _ => none) stSkip obsEx [mfVid] 0).1
    rfl (by decide)

theorem create_scene_media_unchanged (settings : Settings)
    (item_id : String → String → Option Nat) (st : CMState) (obs : ObsState)
    (m : MediaFile) :
    (_create_scene_for_media settings item_id st obs m).1.media_files =
      st.media_files := by
  unfold _create_scene_for_media
  split <;> rfl

theorem createScenesLoop_media (settings : Settings)
    (item_id : String → String → Option Nat) (files : List MediaFile)
    (st : CMState) (obs : ObsState) :
    (createScenesLoop settings item_id files st obs).1.media_files =
      st.media_files := by
  induction files generalizing st obs with
  | nil => rfl
  | cons m rest ih =>
    simp only [createScenesLoop]
    rw [ih, create_scene_media_unchanged]

theorem cleanup_orphaned_fst (st : CMState) (obs : ObsState) :
    (_cleanup_orphaned_scenes st obs).1 = st := rfl

/-- C5: whenever `apply` actually reconciles (the change-detection guard
does not fire), the emitted operations begin with the bootstrap full
sweep — removal of every listed input with the `_source` suffix and every
listed scene matching the naming convention or reserved names — if and
only if both managed sets are empty at the start of the run, a condition
independent of what the controller holds; otherwise they begin with the
incremental cleanup, which removes exactly the scenes and inputs recorded
in `ManagedState`. -/
theorem bootstrap_iff_managed_empty (settings : Settings)
    (probe : String → Option Rat) (item_id : String → String → Option Nat)
    (st : CMState) (obs : ObsState) (new_media_files : List MediaFile)
    (now : Rat)
    (hrun : ¬(_calculate_content_hash new_media_files = st.content_hash ∧
      st.media_files ≠ [])) :
    ∃ rest,
      (scan_and_update_content settings probe item_id st obs
          new_media_files now).2.2 =
        (if st.managed_scenes = [] ∧ st.managed_inputs = [] then
          (obs.inputs.filter (fun s => s.endsWith "_source")).map Op.remove_input ++
            (obs.scenes.filter signageScenePattern).map Op.remove_scene
        else
          st.managed_scenes.map Op.remove_scene ++
            st.managed_inputs.map Op.remove_input) ++ rest := by
  unfold scan_and_update_content
  rw [if_neg hrun]
  by_cases hm : st.managed_scenes = [] ∧ st.managed_inputs = []
  · obtain ⟨hm1, hm2⟩ := hm
    rcases eq_or_ne new_media_files [] with hemp | hemp
    · subst hemp
      simp only [reconcile_content, _cleanup_all_digital_signage_content,
        _activate_waiting_scene, hm1, hm2, and_self, if_true, if_pos,
        List.append_assoc]
      exact ⟨_, rfl⟩
    · have hne2 : new_media_files.mergeSort fileLe ≠ [] := by
        intro h
        apply hemp
        have hlen := congrArg List.length h
        rw [List.length_mergeSort] at hlen
        exact List.length_eq_zero.mp hlen
      have hne3 : (new_media_files.mergeSort fileLe).map
          (resolveEntry settings probe) ≠ [] :=
        fun h => hne2 (List.map_eq_nil_iff.mp h)
      simp only [reconcile_content, _cleanup_all_digital_signage_content,
        _calculate_media_durations, _create_scenes_for_media,
        createScenesLoop_media, cleanup_orphaned_fst,
        hm1, hm2, and_self, if_true, hemp, hne3, ne_eq,
        not_false_eq_true, if_false, List.append_assoc]
      exact ⟨_, rfl⟩
  · rcases eq_or_ne new_media_files [] with hemp | hemp
    · subst hemp
      simp only [reconcile_content, _cleanup_old_content,
        _activate_waiting_scene, hm, if_false, if_pos, if_neg,
        List.append_assoc]
      exact ⟨_, rfl⟩
    · have hne2 : new_media_files.mergeSort fileLe ≠ [] := by
        intro h
        apply hemp
        have hlen := congrArg List.length h
        rw [List.length_mergeSort] at hlen
        exact List.length_eq_zero.mp hlen
      have hne3 : (new_media_files.mergeSort fileLe).map
          (resolveEntry settings probe) ≠ [] :=
        fun h => hne2 (List.map_eq_nil_iff.mp h)
      simp only [reconcile_content, _cleanup_old_content,
        _calculate_media_durations, _create_scenes_for_media,
        createScenesLoop_media, cleanup_orphaned_fst,
        hm, hemp, hne3, ne_eq, not_false_eq_true, if_false, if_neg,
        List.append_assoc]
      exact ⟨_, rfl⟩

/-- Witness for C5: a managed, empty-catalog state reconciles through the
incremental path. -/
theorem bootstrap_iff_managed_empty_witness :
    ∃ rest,
      (scan_and_update_content cfgW probeW (fun _ _ => none) cmEx obsEx
          [mfVid] 3).2.2 =
        (if cmEx.managed_scenes = [] ∧ cmEx.managed_inputs = [] then
          (obsEx.inputs.filter (fun s => s.endsWith "_source")).map Op.remove_input ++
            (obsEx.scenes.filter signageScenePattern).map Op.remove_scene
        else
          cmEx.managed_scenes.map Op.remove_scene ++
            cmEx.managed_inputs.map Op.remove_input) ++ rest :=
  bootstrap_iff_managed_empty cfgW probeW (fun _ _ => none) cmEx obsEx
    [mfVid] 3 (fun h => h.2 rfl)
